import Mathlib

/-!
Shallow embedding of the team-member registry of the Timezones repository.

The registry has two storage backends in the source:
* a relational (Neon Postgres) backend, whose route handlers live in
  src/unnamed/part_005 (collection routes: GET/POST/DELETE on
  /api/team-members) and src/src/app/api/team-members/[id]/route.ts
  (per-id DELETE/GET);
* a Vercel-Blob JSON-document backend in src/unnamed/part_004.

The "working now" status computation lives in two client components:
the card appended to src/src/lib/auth.ts (window-aware, luxon-based
inWorkingHours) and the card in src/unnamed/part_011 (fixed 9-17 rule).

SQL statements are embedded as pure list operations over an explicit
store state; each route handler becomes a state-transition function
returning the new store and the HTTP-level outcome.  JavaScript
`undefined` for an absent string field is modelled as the empty string
(both are falsy in the source's truthiness checks and flow identically
through the handlers).
-/

namespace Timezones

/-- A row of the `users` table, as read by the route handlers
(`SELECT role FROM users WHERE id = ...` and the LEFT JOIN on
`users.id`).  Only the columns the handlers consult are modelled. -/
structure UserRow where
  id : Nat
  role : String
  deriving DecidableEq, Repr

/-- A stored `team_members` row of the relational backend, with the
columns named in the INSERT/SELECT statements of part_005:
id, name, location, timezone, flag, created_by, status, created_at. -/
structure MemberRow where
  id : Nat
  name : String
  location : String
  timezone : String
  flag : String
  created_by : Option Nat
  status : String
  created_at : Nat
  deriving DecidableEq, Repr

/-- The relational database state: the two tables, the next value of the
`id` sequence (`team_members.id` is generated by the database), and a
clock supplying `created_at` defaults. -/
structure Store where
  users : List UserRow
  members : List MemberRow
  nextId : Nat
  clock : Nat
  deriving DecidableEq, Repr

/-- `SELECT ... FROM users WHERE id = uid` (first row or none). -/
def selectUserWhereId (s : Store) (uid : Nat) : Option UserRow :=
  s.users.find? (fun u => u.id == uid)

/-- `SELECT id FROM team_members WHERE created_by = uid` (first row or
none); note the source query has no `status` filter. -/
def selectMemberWhereCreatedBy (s : Store) (uid : Nat) : Option MemberRow :=
  s.members.find? (fun m => m.created_by == some uid)

/-- The request body of a create call, `{ name, location, timezone, flag }`.
An absent field is modelled as `""`. -/
structure CreateBody where
  name : String
  location : String
  timezone : String
  flag : String
  deriving DecidableEq, Repr

/-- The authenticated caller taken from the NextAuth session:
`session.user.id` and `session.user.role`. -/
structure SessionUser where
  id : Nat
  role : String
  deriving DecidableEq, Repr

/-- `flag || '🌍'` from the part_005 INSERT statements. -/
def effFlag (flag : String) : String :=
  if flag == "" then "🌍" else flag

/-- `!name || !location || !timezone`: the entire input validation of the
part_005 POST handler (presence only; the timezone string itself is
never resolved against the IANA database anywhere in the source). -/
def missingField (body : CreateBody) : Bool :=
  body.name == "" || body.location == "" || body.timezone == ""

/-- The row built by the part_005 INSERT: the database assigns the next
generated id and the `created_at` default. -/
def mkRow (s : Store) (body : CreateBody) (created_by : Option Nat)
    (status : String) : MemberRow :=
  { id := s.nextId,
    name := body.name,
    location := body.location,
    timezone := body.timezone,
    flag := effFlag body.flag,
    created_by := created_by,
    status := status,
    created_at := s.clock }

/-- Executing an INSERT: append the row, advance the id sequence and the
clock. -/
def Store.insertRow (s : Store) (m : MemberRow) : Store :=
  { s with
      members := s.members ++ [m],
      nextId := s.nextId + 1,
      clock := s.clock + 1 }

/-- The own properties of the row object produced by
`SELECT role FROM users WHERE id = ...`: exactly one property, "role".
Used to evaluate the handler's property accesses on that object. -/
def UserRow.rowProps (r : UserRow) : List (String × String) :=
  [("role", r.role)]

/-- JavaScript property access `row[k]` on the role row object. -/
def UserRow.prop (r : UserRow) (k : String) : Option String :=
  r.rowProps.lookup k

/-- Accessing `.role` on a string value: a JS string primitive has no
"role" property, so the access yields undefined. -/
def stringRoleProp (_v : String) : Option String := none

/-- `currentUser?.[0]?.role === 'admin'` from part_005, where
`currentUser` is already the FIRST ROW of the query result (the handler
destructures `const [currentUser] = await sql...`).  Indexing that row
object at "0" yields undefined, so the whole chain compares undefined
with 'admin'. -/
def isAdminPost (row : Option UserRow) : Bool :=
  ((row.bind (fun r => r.prop "0")).bind stringRoleProp) == some "admin"

/-- Outcome of the part_005 POST handler. -/
inductive PostResult where
  /-- 400: name, location, and timezone are required. -/
  | badRequest
  /-- 200, anonymous path: created pending approval. -/
  | createdPending (m : MemberRow)
  /-- 403: you can only create one team member. -/
  | quotaForbidden
  /-- 200, authenticated path. -/
  | createdActive (m : MemberRow)
  deriving DecidableEq, Repr

/-- Outcome of the part_005 GET handler: each member row left-joined with
its creator's users row. -/
inductive GetResult where
  /-- 401: no session. -/
  | unauthorized
  /-- 200 with the joined rows (ORDER BY affects presentation order only;
  the result set is modelled in storage order). -/
  | ok (rows : List (MemberRow × Option UserRow))
  deriving DecidableEq, Repr

namespace ApiTeamMembers

/-- The part_005 POST handler on /api/team-members.

Anonymous callers get a pending record with created_by NULL; for
authenticated callers the handler reads the caller's role row, computes
`isAdmin` by the `currentUser?.[0]?.role` chain, and when not admin
denies the create if any team_members row has created_by equal to the
caller's id; otherwise it inserts an active record. -/
def POST (session : Option SessionUser) (body : CreateBody) (s : Store) :
    Store × PostResult :=
  if missingField body then (s, .badRequest)
  else
    match session with
    | none =>
        (s.insertRow (mkRow s body none "pending"),
         .createdPending (mkRow s body none "pending"))
    | some u =>
        if !(isAdminPost (selectUserWhereId s u.id)) &&
            (selectMemberWhereCreatedBy s u.id).isSome then
          (s, .quotaForbidden)
        else
          (s.insertRow (mkRow s body (some u.id) "active"),
           .createdActive (mkRow s body (some u.id) "active"))

/-- The part_005 GET handler: 401 without a session, else all
team_members rows LEFT JOINed with their creator's users row. -/
def GET (session : Option SessionUser) (s : Store) : GetResult :=
  match session with
  | none => .unauthorized
  | some _ =>
      .ok (s.members.map (fun m =>
        (m, m.created_by.bind (fun c => selectUserWhereId s c))))

end ApiTeamMembers

/-- Outcome of the per-id DELETE handler
(src/src/app/api/team-members/[id]/route.ts). -/
inductive DeleteResult where
  /-- 401: no session. -/
  | unauthorized
  /-- 404: team member not found. -/
  | notFound
  /-- 403: only the creator or an admin may delete. -/
  | forbidden
  /-- 500: the DELETE statement removed no row. -/
  | serverError
  /-- 200 with the first deleted row. -/
  | okDeleted (m : MemberRow)
  deriving DecidableEq, Repr

namespace ApiTeamMemberId

/-- The DELETE handler of src/src/app/api/team-members/[id]/route.ts.

`memberId` is the already-parsed numeric route parameter (the handler
rejects non-numeric ids with 400 before touching the store; such calls
never reach the logic modelled here).  The handler looks the member up
(LEFT JOIN gives `created_by_id` = the creator's users.id, or null),
takes the role from the session with default 'user', and allows the
delete only for an admin or the creator. -/
def DELETE (session : Option SessionUser) (memberId : Nat) (s : Store) :
    Store × DeleteResult :=
  match session with
  | none => (s, .unauthorized)
  | some u =>
      match s.members.find? (fun m => m.id == memberId) with
      | none => (s, .notFound)
      | some m =>
          let created_by_id : Option Nat :=
            m.created_by.bind (fun c =>
              (selectUserWhereId s c).map (fun usr => usr.id))
          let currentUserRole := if u.role == "" then "user" else u.role
          let isAdmin := currentUserRole == "admin"
          let isCreator :=
            match created_by_id with
            | some c => u.id == c
            | none => false
          if !isAdmin && !isCreator then (s, .forbidden)
          else
            match s.members.filter (fun x => x.id == memberId) with
            | [] => (s, .serverError)
            | d :: _ =>
                ({ s with members :=
                    s.members.filter (fun x => !(x.id == memberId)) },
                 .okDeleted d)

end ApiTeamMemberId

/-- One registry operation against the relational backend: a create via
the part_005 POST handler or a delete via the per-id DELETE handler,
with an arbitrary (possibly absent) session. -/
inductive Op where
  | create (session : Option SessionUser) (body : CreateBody)
  | remove (session : Option SessionUser) (memberId : Nat)
  deriving DecidableEq, Repr

/-- Apply one operation sequentially, keeping the resulting store. -/
def applyOp (s : Store) (op : Op) : Store :=
  match op with
  | .create session body => (ApiTeamMembers.POST session body s).1
  | .remove session memberId => (ApiTeamMemberId.DELETE session memberId s).1

/-- Run a finite sequence of operations one at a time. -/
def runOps (s : Store) (ops : List Op) : Store :=
  ops.foldl applyOp s

/-- The QuotaTracker count: records with created_by equal to the given
principal id and status active. -/
def activeCountFor (p : Nat) (s : Store) : Nat :=
  s.members.countP (fun m => m.created_by == some p && m.status == "active")

/-! ### Concurrent create calls

The authenticated create path of the part_005 POST handler performs
three storage round-trips in sequence: the role SELECT, the quota
SELECT, and the INSERT.  Nothing in the source wraps them in a
transaction, and the only team_members DDL in the source (part_008's
initializeDatabase) declares no uniqueness constraint on created_by.
Two concurrent calls are modelled as two copies of this three-step
program interleaved over the shared store. -/

/-- The position of one in-flight authenticated create call between its
storage round-trips. -/
inductive CPhase where
  /-- Request validated, no storage access yet. -/
  | start
  /-- The role SELECT has run and isAdmin has been computed. -/
  | gotRole (isAdmin : Bool)
  /-- The quota SELECT has run and found no record for the caller. -/
  | passedCheck
  /-- Responded: true = 200 created active, false = 403 quota denial. -/
  | finished (ok : Bool)
  deriving DecidableEq, Repr

/-- One storage round-trip of an in-flight authenticated create call
(valid body, session user u), exactly the part_005 POST steps. -/
def cstep (u : SessionUser) (body : CreateBody) (s : Store) (ph : CPhase) :
    Store × CPhase :=
  match ph with
  | .start => (s, .gotRole (isAdminPost (selectUserWhereId s u.id)))
  | .gotRole a =>
      if !a && (selectMemberWhereCreatedBy s u.id).isSome then
        (s, .finished false)
      else (s, .passedCheck)
  | .passedCheck =>
      (s.insertRow (mkRow s body (some u.id) "active"), .finished true)
  | .finished b => (s, .finished b)

/-- The joint state of the store and two in-flight create calls. -/
structure TwoCreates where
  store : Store
  ph1 : CPhase
  ph2 : CPhase
  deriving DecidableEq, Repr

/-- Run an interleaving of two create calls by the same session user:
each schedule entry picks which call performs its next round-trip
(true = first call). -/
def crun (u : SessionUser) (b1 b2 : CreateBody) :
    List Bool → TwoCreates → TwoCreates
  | [], t => t
  | c :: rest, t =>
      if c then
        let (s, ph) := cstep u b1 t.store t.ph1
        crun u b1 b2 rest ⟨s, ph, t.ph2⟩
      else
        let (s, ph) := cstep u b2 t.store t.ph2
        crun u b1 b2 rest ⟨s, t.ph1, ph⟩

/-! ### Working-status calculators

Two client components compute a member's working status.  Local
wall-clock times are modelled as minutes after local midnight
(the HH:mm granularity of the work_start / work_end props). -/

namespace CardWithWindow

/-- The three displays of the card appended to src/src/lib/auth.ts:
"Working hours not set" (inWorkingHours returned null), "Working now",
and "Outside working hours". -/
inductive CardStatus where
  | workingHoursNotSet
  | workingNow
  | outsideWorkingHours
  deriving DecidableEq, Repr

/-- inWorkingHours from the card in src/src/lib/auth.ts (lines 174-183):
null when either window boundary prop is absent; otherwise it parses
both boundaries as HH:mm times of today in the member's zone and
compares them with the current local time.  work_start / work_end are
given here as the parsed minute-of-day values (none = prop absent or
empty, which the source's truthiness guard sends to the null branch). -/
def inWorkingHours (work_start work_end : Option Nat) (now : Nat) :
    Option Bool :=
  match work_start, work_end with
  | some s, some e =>
      if e ≤ s then some (decide (s ≤ now) || decide (now ≤ e))
      else some (decide (s ≤ now) && decide (now ≤ e))
  | _, _ => none

/-- The status the card renders from the inWorkingHours result. -/
def cardStatus (work_start work_end : Option Nat) (now : Nat) : CardStatus :=
  match inWorkingHours work_start work_end now with
  | none => .workingHoursNotSet
  | some true => .workingNow
  | some false => .outsideWorkingHours

end CardWithWindow

namespace CardDefaultHours

/-- isWorkingHours from the card in src/unnamed/part_011 (lines 48-51):
localTime ? localTime.hour >= 9 && localTime.hour <= 17 : false.
The argument is the member's local hour when computed (the component
leaves localTime null until mounted). -/
def isWorkingHours (localHour : Option Nat) : Bool :=
  match localHour with
  | some h => decide (9 ≤ h) && decide (h ≤ 17)
  | none => false

end CardDefaultHours

/-! ### Blob/document backend (src/unnamed/part_004)

The whole collection lives in one JSON blob.  The storage state is
`none` when no team-members.json blob exists and `some l` when the blob
holds the member list `l`.  Failures of the blob reads and writes that
getTeamMembers performs are modelled by explicit flags, because the
function catches them and falls back to the initial team. -/

/-- A member record of the blob backend.  The id is assigned from
Date.now() at creation; created_at (an ISO string in the source) is
modelled as the same millisecond clock value. -/
structure BlobMember where
  id : Nat
  name : String
  location : String
  timezone : String
  flag : String
  created_at : Nat
  deriving DecidableEq, Repr

namespace ApiTeamMembersBlob

/-- The hard-coded initial team of part_004 (module-load created_at
modelled as 0). -/
def INITIAL_TEAM : List BlobMember :=
  [{ id := 1,
     name := "Jorge Pimentel",
     location := "Florida, USA",
     timezone := "America/New_York",
     flag := "🇺🇸",
     created_at := 0 },
   { id := 2,
     name := "Phillip",
     location := "Hanoi, Vietnam",
     timezone := "Asia/Ho_Chi_Minh",
     flag := "🇻🇳",
     created_at := 0 },
   { id := 3,
     name := "Kevin",
     location := "Riga, Latvia",
     timezone := "Europe/Riga",
     flag := "🇱🇻",
     created_at := 0 }]

/-- getTeamMembers from part_004: with no stored blob it seeds the
initial team (even if that save fails, the catch still returns the
initial team with the storage left empty); with a stored blob it
returns its contents, or falls back to the initial team when the
read fails.  Returns the storage after the call and the list the
caller receives; the function itself never throws. -/
def getTeamMembers (st : Option (List BlobMember))
    (readFails saveFails : Bool) :
    Option (List BlobMember) × List BlobMember :=
  match st with
  | none => (if saveFails then none else some INITIAL_TEAM, INITIAL_TEAM)
  | some l => if readFails then (st, INITIAL_TEAM) else (st, l)

/-- Outcome of the part_004 GET handler. -/
inductive BlobGetResult where
  /-- 200 with the member list. -/
  | ok (data : List BlobMember)
  /-- 500: the catch block around getTeamMembers. -/
  | serverError
  deriving DecidableEq, Repr

/-- The part_004 GET handler: returns whatever getTeamMembers yields;
its 500 branch requires getTeamMembers to throw, which that function's
own catch prevents. -/
def GET (st : Option (List BlobMember)) (readFails saveFails : Bool) :
    Option (List BlobMember) × BlobGetResult :=
  let r := getTeamMembers st readFails saveFails
  (r.1, .ok r.2)

/-- Outcome of the part_004 POST handler (success path of the final
save; a failing save surfaces as the handler's 500 and is outside the
claims modelled here). -/
inductive BlobPostResult where
  /-- 400: name, location, and timezone are required. -/
  | badRequest
  /-- 200 with the new member. -/
  | ok (m : BlobMember)
  deriving DecidableEq, Repr

/-- The part_004 POST handler at millisecond clock `now`: validate
presence of name/location/timezone, read the current list via
getTeamMembers, build the new member with id := Date.now(), append it,
and save the whole list back. -/
def POST (now : Nat) (body : CreateBody) (st : Option (List BlobMember))
    (readFails saveFails : Bool) :
    Option (List BlobMember) × BlobPostResult :=
  if missingField body then (st, .badRequest)
  else
    let current := (getTeamMembers st readFails saveFails).2
    let newMember : BlobMember :=
      { id := now,
        name := body.name,
        location := body.location,
        timezone := body.timezone,
        flag := if body.flag == "" then "🌍" else body.flag,
        created_at := now }
    (some (current ++ [newMember]), .ok newMember)

/-- Outcome of the part_004 DELETE handler. -/
inductive BlobDeleteResult where
  /-- 404: team member not found. -/
  | notFound
  /-- 200: deleted. -/
  | ok
  deriving DecidableEq, Repr

/-- The part_004 DELETE handler for an already-parsed numeric id: read
the current list, filter the id out, 404 when nothing was removed, else
save the filtered list. -/
def DELETE (memberId : Nat) (st : Option (List BlobMember))
    (readFails saveFails : Bool) :
    Option (List BlobMember) × BlobDeleteResult :=
  let r := getTeamMembers st readFails saveFails
  let updated := r.2.filter (fun m => !(m.id == memberId))
  if updated.length == r.2.length then (r.1, .notFound)
  else (some updated, .ok)

end ApiTeamMembersBlob

/-- Pairwise distinctness of the stored ids of a blob member list. -/
def memberIdsNodup (l : List BlobMember) : Prop :=
  (l.map (fun m => m.id)).Nodup

/-! ### Concrete fixtures for witnesses and counterexamples -/

/-- A non-admin session user. -/
def userSeven : SessionUser := ⟨7, "user"⟩

/-- Another non-admin session user. -/
def userTwo : SessionUser := ⟨2, "user"⟩

/-- A valid create body with the flag left absent. -/
def bodyAna : CreateBody := ⟨"Ana", "Lisbon, Portugal", "Europe/Lisbon", ""⟩

/-- A second valid create body. -/
def bodyBen : CreateBody := ⟨"Ben", "Porto, Portugal", "Europe/Lisbon", "🇵🇹"⟩

/-- A create body whose timezone string is not a resolvable IANA zone. -/
def bodyBadZone : CreateBody := ⟨"Ada", "Berlin, Germany", "Not/AZone", ""⟩

/-- A store with a non-admin user 7 and an admin user 1, and no member
records yet. -/
def storeSeven : Store := ⟨[⟨7, "user"⟩, ⟨1, "admin"⟩], [], 10, 100⟩

/-- A member record created by user 1. -/
def memberOfUserOne : MemberRow :=
  ⟨5, "Mara", "Riga, Latvia", "Europe/Riga", "🇱🇻", some 1, "active", 0⟩

/-- A store in which the admin user 1 already has one active record
attributed to them. -/
def storeAdminWithRecord : Store :=
  ⟨[⟨1, "admin"⟩], [memberOfUserOne], 6, 50⟩

/-- A store with two non-admin users where user 1 created the only
member record. -/
def storeDeleteCase : Store :=
  ⟨[⟨1, "user"⟩, ⟨2, "user"⟩], [memberOfUserOne], 6, 9⟩

/-- A short operation sequence by user 7: two creates (the second is
quota-denied), a delete, and an anonymous create. -/
def opsSeven : List Op :=
  [Op.create (some userSeven) bodyAna,
   Op.create (some userSeven) bodyBen,
   Op.remove (some userSeven) 10,
   Op.create none bodyBen]

/-- The interleaving of two create calls in which both quota checks run
before either insert. -/
def raceSchedule : List Bool := [true, false, true, false, true, false]

/-- The two blob members produced by two creates at the same
millisecond 1700000000000. -/
def duplicateIdPair : List BlobMember :=
  [{ id := 1700000000000,
     name := "Ana",
     location := "Lisbon, Portugal",
     timezone := "Europe/Lisbon",
     flag := "🌍",
     created_at := 1700000000000 },
   { id := 1700000000000,
     name := "Ben",
     location := "Porto, Portugal",
     timezone := "Europe/Lisbon",
     flag := "🇵🇹",
     created_at := 1700000000000 }]

/-- A single blob member, the last one left in the collection. -/
def blobSolo : BlobMember :=
  ⟨1, "Jorge Pimentel", "Florida, USA", "America/New_York", "🇺🇸", 0⟩

/-! ### Helper lemmas -/

/-- The isAdmin chain of the part_005 handlers always evaluates to
false: the first result row is destructured twice, and the row object
has no "0" property. -/
theorem isAdminPost_eq_false (row : Option UserRow) : isAdminPost row = false := by
  cases row <;> rfl

/-- Effect of an INSERT on the active count. -/
theorem activeCountFor_insertRow (p : Nat) (s : Store) (m : MemberRow) :
    activeCountFor p (s.insertRow m) =
      activeCountFor p s +
        (if m.created_by == some p && m.status == "active" then 1 else 0) := by
  simp [activeCountFor, Store.insertRow, List.countP_append, List.countP_cons]

/-- When the quota SELECT finds no row for p, the active count of p is
zero. -/
theorem activeCountFor_eq_zero (p : Nat) (s : Store)
    (h : selectMemberWhereCreatedBy s p = none) : activeCountFor p s = 0 := by
  rw [activeCountFor, List.countP_eq_zero]
  intro m hm hpred
  have hno := List.find?_eq_none.mp h m hm
  rw [Bool.and_eq_true] at hpred
  exact hno hpred.1

end Timezones

namespace Timezones


theorem delete_store_cases (session : Option SessionUser) (mid : Nat) (s : Store) :
    (ApiTeamMemberId.DELETE session mid s).1 = s ∨
    (ApiTeamMemberId.DELETE session mid s).1 =
      { s with members := s.members.filter (fun x => !(x.id == mid)) } := by
  unfold ApiTeamMemberId.DELETE
  cases session with
  | none => exact Or.inl rfl
  | some u =>
    rcases hfind : s.members.find? (fun m => m.id == mid) with _ | m
    · rw [hfind]
      exact Or.inl rfl
    · rw [hfind]
      simp only []
      repeat' split
      all_goals first
        | exact Or.inl rfl
        | exact Or.inr rfl

theorem activeCountFor_applyOp (p : Nat) (s : Store) (op : Op)
    (h : activeCountFor p s ≤ 1) : activeCountFor p (applyOp s op) ≤ 1 := by
  cases op with
  | create session body =>
    cases session with
    | none =>
      by_cases hb : missingField body = true
      · simpa [applyOp, ApiTeamMembers.POST, hb] using h
      · rw [Bool.not_eq_true] at hb
        simp only [applyOp, ApiTeamMembers.POST, hb, Bool.false_eq_true,
          if_false]
        rw [activeCountFor_insertRow]
        simpa [mkRow] using h
    | some u =>
      by_cases hb : missingField body = true
      · simpa [applyOp, ApiTeamMembers.POST, hb] using h
      · rw [Bool.not_eq_true] at hb
        by_cases hq : (selectMemberWhereCreatedBy s u.id).isSome = true
        · simpa [applyOp, ApiTeamMembers.POST, hb, isAdminPost_eq_false, hq]
            using h
        · have hqn : selectMemberWhereCreatedBy s u.id = none := by
            cases hsel : selectMemberWhereCreatedBy s u.id <;> simp_all
          simp only [applyOp, ApiTeamMembers.POST, hb, Bool.false_eq_true,
            if_false, isAdminPost_eq_false, hq, Bool.not_false, Bool.true_and]
          rw [activeCountFor_insertRow]
          by_cases hup : u.id = p
          · subst hup
            rw [activeCountFor_eq_zero u.id s hqn]
            simp [mkRow]
          · have : ((some u.id == some p) : Bool) = false := by
              simp [beq_eq_false_iff_ne, hup]
            simpa [mkRow, this] using h
  | remove session memberId =>
    show activeCountFor p (ApiTeamMemberId.DELETE session memberId s).1 ≤ 1
    rcases delete_store_cases session memberId s with hst | hst
    · rw [hst]; exact h
    · rw [hst]
      refine le_trans ?_ h
      exact List.Sublist.countP_le _ (List.filter_sublist _)


/-- C1: starting from a store in which a non-admin principal p has at
most one active record with created_by = p, any finite sequence of
Create (part_005 POST) and Delete (per-id DELETE) operations executed
one at a time leaves the number of active records with created_by = p
at most 1. -/
theorem quota_invariant_sequential (p : Nat) (ops : List Op) (s : Store)
    (_hrole : ∀ u ∈ s.users, u.id = p → u.role ≠ "admin")
    (hinit : activeCountFor p s ≤ 1) :
    activeCountFor p (runOps s ops) ≤ 1 := by
  clear _hrole
  induction ops generalizing s with
  | nil => simpa [runOps] using hinit
  | cons op rest ih =>
    rw [runOps, List.foldl_cons]
    exact ih (applyOp s op) (activeCountFor_applyOp p s op hinit)

/-- Witness for C1 at a concrete store and operation sequence. -/
theorem quota_invariant_sequential_witness :
    ((∀ u ∈ storeSeven.users, u.id = 7 → u.role ≠ "admin") ∧
      activeCountFor 7 storeSeven ≤ 1) ∧
    activeCountFor 7 (runOps storeSeven opsSeven) ≤ 1 :=
  ⟨⟨by decide, by decide⟩,
    quota_invariant_sequential 7 opsSeven storeSeven (by decide) (by decide)⟩

/-- C2: under the interleaving of two authenticated create calls by the
same non-admin user 7 in which both quota SELECTs execute before either
INSERT, both calls respond 200 and the store ends with two active
records created_by 7 - the quota invariant is violated and neither call
sees a Conflict. -/
theorem concurrent_create_race_both_succeed :
    (crun userSeven bodyAna bodyBen raceSchedule
        ⟨storeSeven, CPhase.start, CPhase.start⟩).ph1 = CPhase.finished true ∧
    (crun userSeven bodyAna bodyBen raceSchedule
        ⟨storeSeven, CPhase.start, CPhase.start⟩).ph2 = CPhase.finished true ∧
    activeCountFor 7 (crun userSeven bodyAna bodyBen raceSchedule
        ⟨storeSeven, CPhase.start, CPhase.start⟩).store = 2 := by
  exact ⟨rfl, rfl, rfl⟩

/-- C3: a Create call by the authenticated admin user 1, who already has
one record attributed to them, is denied with the 403 quota response
and stores nothing, because the handler's currentUser?.[0]?.role chain
never evaluates to 'admin'. -/
theorem admin_create_denied_by_role_chain :
    ApiTeamMembers.POST (some ⟨1, "admin"⟩) bodyAna storeAdminWithRecord =
      (storeAdminWithRecord, PostResult.quotaForbidden) ∧
    isAdminPost (selectUserWhereId storeAdminWithRecord 1) = false := by
  exact ⟨rfl, rfl⟩

/-- C4: a Create call with no session and all three required fields
present is allowed for every prior store state; the stored record has
status pending and created_by none. -/
theorem anonymous_create_pending (body : CreateBody) (s : Store)
    (hn : body.name ≠ "") (hl : body.location ≠ "") (ht : body.timezone ≠ "") :
    ApiTeamMembers.POST none body s =
      (s.insertRow (mkRow s body none "pending"),
        PostResult.createdPending (mkRow s body none "pending")) ∧
    (mkRow s body none "pending").status = "pending" ∧
    (mkRow s body none "pending").created_by = none := by
  have hb : missingField body = false := by
    simp [missingField, hn, hl, ht]
  simp [ApiTeamMembers.POST, hb, mkRow]

/-- Witness for C4 at a concrete body and a store that already has a
member record. -/
theorem anonymous_create_pending_witness :
    (bodyBen.name ≠ "" ∧ bodyBen.location ≠ "" ∧ bodyBen.timezone ≠ "") ∧
    (ApiTeamMembers.POST none bodyBen storeAdminWithRecord =
        (storeAdminWithRecord.insertRow
          (mkRow storeAdminWithRecord bodyBen none "pending"),
          PostResult.createdPending
            (mkRow storeAdminWithRecord bodyBen none "pending")) ∧
      (mkRow storeAdminWithRecord bodyBen none "pending").status = "pending" ∧
      (mkRow storeAdminWithRecord bodyBen none "pending").created_by = none) :=
  ⟨⟨by decide, by decide, by decide⟩,
    anonymous_create_pending bodyBen storeAdminWithRecord
      (by decide) (by decide) (by decide)⟩


/-- C5 counterexample: a Create whose timezone is the unresolvable
string "Not/AZone" is not rejected - the handler returns success and
the record is stored with that timezone. -/
theorem invalid_timezone_accepted :
    (ApiTeamMembers.POST none bodyBadZone storeSeven).2 ≠
      PostResult.badRequest ∧
    (ApiTeamMembers.POST none bodyBadZone storeSeven).1.members =
      storeSeven.members ++ [mkRow storeSeven bodyBadZone none "pending"] ∧
    (mkRow storeSeven bodyBadZone none "pending").timezone = "Not/AZone" := by
  refine ⟨?_, rfl, rfl⟩
  decide

/-- C5 amended: the part_005 Create validation is a presence check
only - it returns the 400 validation error exactly when name, location,
or timezone is missing/empty, and any non-empty timezone string is
accepted. -/
theorem create_validation_presence_only (session : Option SessionUser)
    (body : CreateBody) (s : Store) :
    (ApiTeamMembers.POST session body s).2 = PostResult.badRequest ↔
      (body.name = "" ∨ body.location = "" ∨ body.timezone = "") := by
  by_cases hb : missingField body = true
  · have hrhs : body.name = "" ∨ body.location = "" ∨ body.timezone = "" := by
      have := hb
      simp [missingField] at this
      tauto
    simp [ApiTeamMembers.POST, hb, hrhs]
  · rw [Bool.not_eq_true] at hb
    have hrhs : ¬(body.name = "" ∨ body.location = "" ∨ body.timezone = "") := by
      have := hb
      simp [missingField] at this
      tauto
    simp only [ApiTeamMembers.POST, hb, Bool.false_eq_true, if_false]
    cases session with
    | none => simp [hrhs]
    | some u =>
      by_cases hq : (!(isAdminPost (selectUserWhereId s u.id)) &&
          (selectMemberWhereCreatedBy s u.id).isSome) = true
      · simp [hq, hrhs]
      · rw [Bool.not_eq_true] at hq
        simp [hq, hrhs]

/-- C6 counterexample: in the window-aware card of src/src/lib/auth.ts,
a member with no configured work window at local time 10:00 (within
9-17) is rendered "Working hours not set", not Working - the no-window
path yields the not-set status, not the 9-17 default. -/
theorem no_window_card_shows_not_set :
    CardWithWindow.cardStatus none none 600 =
      CardWithWindow.CardStatus.workingHoursNotSet ∧
    CardWithWindow.cardStatus none none 600 ≠
      CardWithWindow.CardStatus.workingNow ∧
    9 ≤ 600 / 60 ∧ 600 / 60 ≤ 17 := by
  decide

/-- C6 amended: the 9-17 default lives only in the part_011 card, whose
computed status is Working exactly when the local hour is in [9,17]
(it is binary, never a third state); the window-aware card of auth.ts
applies no default and returns null whenever either window boundary is
absent. -/
theorem default_hours_only_in_simple_card :
    (∀ h : Nat, CardDefaultHours.isWorkingHours (some h) = true ↔
      (9 ≤ h ∧ h ≤ 17)) ∧
    CardDefaultHours.isWorkingHours none = false ∧
    (∀ (w : Option Nat) (now : Nat),
      CardWithWindow.inWorkingHours none w now = none ∧
      CardWithWindow.inWorkingHours w none now = none) := by
  refine ⟨fun h => ?_, rfl, fun w now => ⟨rfl, ?_⟩⟩
  · simp [CardDefaultHours.isWorkingHours]
  · cases w <;> rfl

/-- C7: with both window boundaries configured, the auth.ts card is
Working exactly per the overnight-wrap rule - when end <= start, local
time >= start or local time <= end; otherwise start <= local <= end -
and concretely the 22:00-06:00 window is Working at 23:30 local and
Outside at 12:00 local. -/
theorem configured_window_semantics :
    (∀ s e now : Nat,
      (CardWithWindow.inWorkingHours (some s) (some e) now = some true ↔
        (if e ≤ s then s ≤ now ∨ now ≤ e else s ≤ now ∧ now ≤ e))) ∧
    CardWithWindow.cardStatus (some 1320) (some 360) 1410 =
      CardWithWindow.CardStatus.workingNow ∧
    CardWithWindow.cardStatus (some 1320) (some 360) 720 =
      CardWithWindow.CardStatus.outsideWorkingHours := by
  refine ⟨fun s e now => ?_, by decide, by decide⟩
  by_cases hle : e ≤ s <;>
    simp [CardWithWindow.inWorkingHours, hle]


/-- C8: a Delete call by an authenticated principal who is neither admin
(stored-session role) nor the creator of the target record returns 403
and leaves the store unchanged; the target still appears in a
subsequent List. -/
theorem delete_by_stranger_forbidden (u : SessionUser) (memberId : Nat)
    (s : Store) (m : MemberRow)
    (hfind : s.members.find? (fun x => x.id == memberId) = some m)
    (hrole : u.role ≠ "admin")
    (hnc : m.created_by ≠ some u.id) :
    ApiTeamMemberId.DELETE (some u) memberId s = (s, DeleteResult.forbidden) ∧
    ∃ rows, ApiTeamMembers.GET (some u)
        (ApiTeamMemberId.DELETE (some u) memberId s).1 = GetResult.ok rows ∧
      m ∈ rows.map Prod.fst := by
  have hAdmin : (if u.role = "" then "user" else u.role) ≠ "admin" := by
    by_cases hur : u.role = ""
    · simp [hur]
    · simp [hur, hrole]
  have hCreator : (match m.created_by.bind
      (fun c => (selectUserWhereId s c).map (fun usr => usr.id)) with
      | some c => u.id == c
      | none => false) = false := by
    rcases hcb : m.created_by with _ | c
    · rfl
    · simp only [Option.some_bind]
      rcases hu2 : selectUserWhereId s c with _ | usr
      · rfl
      · have husr : usr.id = c := by
          simpa using List.find?_some hu2
        have hne : u.id ≠ usr.id := by
          rw [husr]
          intro heq
          exact hnc (hcb.trans (congrArg some heq.symm))
        simpa [beq_eq_false_iff_ne] using hne
  have hres : ApiTeamMemberId.DELETE (some u) memberId s =
      (s, DeleteResult.forbidden) := by
    unfold ApiTeamMemberId.DELETE
    rw [hfind]
    simp [hCreator]
    intro hcontra
    exact absurd hcontra hAdmin
  have hstore : (ApiTeamMemberId.DELETE (some u) memberId s).1 = s := by
    rw [hres]
  refine ⟨hres,
    s.members.map (fun x => (x, x.created_by.bind (fun c => selectUserWhereId s c))),
    ?_, ?_⟩
  · rw [hstore]
    rfl
  · rw [List.map_map]
    simpa using List.mem_of_find?_eq_some hfind

/-- Witness for C8 at a concrete store: user 2 tries to delete the
record created by user 1. -/
theorem delete_by_stranger_forbidden_witness :
    (storeDeleteCase.members.find? (fun x => x.id == 5) = some memberOfUserOne ∧
      userTwo.role ≠ "admin" ∧
      memberOfUserOne.created_by ≠ some userTwo.id) ∧
    (ApiTeamMemberId.DELETE (some userTwo) 5 storeDeleteCase =
        (storeDeleteCase, DeleteResult.forbidden) ∧
      ∃ rows, ApiTeamMembers.GET (some userTwo)
          (ApiTeamMemberId.DELETE (some userTwo) 5 storeDeleteCase).1 =
          GetResult.ok rows ∧
        memberOfUserOne ∈ rows.map Prod.fst) :=
  ⟨⟨by decide, by decide, by decide⟩,
    delete_by_stranger_forbidden userTwo 5 storeDeleteCase memberOfUserOne
      (by decide) (by decide) (by decide)⟩

/-- C9: two blob-backend creates at the same millisecond 1700000000000
both receive id 1700000000000 (the id is Date.now()): the stored
collection ends with duplicate ids. -/
theorem blob_same_millisecond_duplicate_id :
    (ApiTeamMembersBlob.POST 1700000000000 bodyBen
        (ApiTeamMembersBlob.POST 1700000000000 bodyAna (some []) false false).1
        false false).1 = some duplicateIdPair ∧
    ¬ memberIdsNodup duplicateIdPair := by
  refine ⟨rfl, ?_⟩
  unfold memberIdsNodup
  decide

/-- C10 counterexample: when the stored blob holds the empty array (a
state the DELETE handler reaches by removing the last member), GET
returns a successful response with an empty collection, not the three
initial members. -/
theorem blob_list_empty_counterexample :
    ApiTeamMembersBlob.GET (some []) false false =
      (some [], ApiTeamMembersBlob.BlobGetResult.ok []) ∧
    (ApiTeamMembersBlob.DELETE 1 (some [blobSolo]) false false).1 =
      some [] := by
  exact ⟨rfl, rfl⟩

/-- C10 amended: the blob List never surfaces a storage failure - with
no stored blob it seeds and returns the initial team (even when the
seeding save fails), and on a failed read it returns the initial team
as success; but a stored empty collection is returned as an empty
success, so List is not never-empty. -/
theorem blob_list_fallbacks :
    (∀ readFails saveFails : Bool,
      ApiTeamMembersBlob.GET none readFails saveFails =
        ((if saveFails then none else some ApiTeamMembersBlob.INITIAL_TEAM),
          ApiTeamMembersBlob.BlobGetResult.ok ApiTeamMembersBlob.INITIAL_TEAM)) ∧
    (∀ (l : List BlobMember) (saveFails : Bool),
      ApiTeamMembersBlob.GET (some l) true saveFails =
        (some l,
          ApiTeamMembersBlob.BlobGetResult.ok ApiTeamMembersBlob.INITIAL_TEAM)) ∧
    (∀ (st : Option (List BlobMember)) (readFails saveFails : Bool),
      ∃ data, (ApiTeamMembersBlob.GET st readFails saveFails).2 =
        ApiTeamMembersBlob.BlobGetResult.ok data) := by
  refine ⟨fun rf sf => ?_, fun l sf => rfl, fun st rf sf => ⟨_, rfl⟩⟩
  cases sf <;> rfl

end Timezones
